import Mathlib

/-!
Verification of `text_convert/pdf_to_text.py` (PDF to Text Converter).

The script converts a hardcoded list of PDF files to text files.
`pdf_to_text(pdf_path, output_path)` opens a PDF via the external
`PyPDF2.PdfReader`, extracts the text of every page, formats each page as a
banner block (an f-string `--- Page {page_num} ---\n{text}\n`), joins the
blocks with `'\n'.join` and writes the result to the output path; a blanket
`except Exception` turns every failure into a `False` return.  `main()`
iterates the hardcoded `pdf_files` list, calls `os.makedirs` on the output
directory, skips missing paths with a warning, derives each output name with
`os.path.basename`/`os.path.splitext`/`os.path.join`, tallies successes and
prints a summary line.

External effects (the PyPDF2 reader and the filesystem) are modelled by
explicit environments recording how each primitive call behaves; the rest of
the script is translated line by line.  A small executable theory of decimal
numerals and of newline-splitting supports the statements about banner lines
in the produced text.
-/

namespace PdfToText

/-- Result of one `page.extract_text()` call of the external library: either
the extracted string or a raised exception (carrying its message). -/
abbrev PageExtract := Except String String

/-- Result of `PdfReader(pdf_path)` (line 20): the ordered list of pages
(each recording how its later `extract_text()` call behaves), or a raised
exception. -/
abbrev OpenResult := Except String (List PageExtract)

/-- Behaviour of the external calls made during one
`pdf_to_text(pdf_path, output_path)` invocation: how `PdfReader` behaves on
`pdf_path`, whether `open(output_path, 'w')` succeeds, and whether the
`f.write(...)` call succeeds. -/
structure FileEnv where
  openResult : OpenResult
  openOutOk : Bool
  writeOk : Bool

/-- State of the file at the output path after a `pdf_to_text` call: never
created, created but holding unspecified content because the write raised
midway (mode `'w'` truncates on open), or fully written with the given
content. -/
inductive FileState where
  | absent
  | interrupted
  | written (content : String)
deriving DecidableEq

/-- Return value and output-file effect of one `pdf_to_text` call. -/
structure ConvResult where
  success : Bool
  outFile : FileState
deriving DecidableEq

/-- Banner for page `n`: the `--- Page {page_num} ---` part of the f-string
on line 29 of `pdf_to_text.py` (`{page_num}` renders in decimal, which is
`Nat.repr`, the meaning of `toString` on `Nat`). -/
def bannerString (n : Nat) : String :=
  "--- Page " ++ toString n ++ " ---"

/-- One element appended to `text_content` on line 29:
`f"--- Page {page_num} ---\n{text}\n"`. -/
def pageBlock (n : Nat) (text : String) : String :=
  bannerString n ++ "\n" ++ text ++ "\n"

/-- The `for page_num, page in enumerate(reader.pages, 1)` loop (lines
27-30): starting at page number `n`, extract each page's text and build the
`text_content` list of page blocks; the first raising `extract_text()` call
aborts the loop with its exception. -/
def textContentLoop : Nat → List PageExtract → Except String (List String)
  | _, [] => .ok []
  | n, pe :: ps =>
    match pe with
    | .error e => .error e
    | .ok t =>
      match textContentLoop (n + 1) ps with
      | .error e => .error e
      | .ok rest => .ok (pageBlock n t :: rest)

/-- The same loop specialised to a page list whose extractions all
succeed. -/
def textContentFrom : Nat → List String → List String
  | _, [] => []
  | n, t :: ts => pageBlock n t :: textContentFrom (n + 1) ts

/-- Python's `'\n'.join(text_content)` (line 34): the empty join is `""`,
and otherwise the parts are separated by single newlines. -/
def joinNl : List String → String
  | [] => ""
  | [s] => s
  | s :: ss => s ++ "\n" ++ joinNl ss

/-- Model of `pdf_to_text(pdf_path, output_path)` (lines 10-41).  The `try`
covers the whole body, so a raise from `PdfReader`, from any
`extract_text()` call, from `open(output_path, 'w')` or from `f.write`
reaches the blanket `except Exception` and yields `False`; only the
all-successful path writes the joined text and returns `True`.  The
extraction loop runs entirely before the output file is opened, so on an
open/parse or extraction failure no file is created. -/
def pdf_to_text (env : FileEnv) : ConvResult :=
  match env.openResult with
  | .error _ => ⟨false, .absent⟩
  | .ok pages =>
    match textContentLoop 1 pages with
    | .error _ => ⟨false, .absent⟩
    | .ok text_content =>
      if env.openOutOk then
        if env.writeOk then ⟨true, .written (joinNl text_content)⟩
        else ⟨false, .interrupted⟩
      else ⟨false, .absent⟩

/-- Split a character list at newline characters; the result always has one
entry more than the number of `'\n'` characters, so a trailing newline
yields a final empty line.  This is the line structure of the produced
text files. -/
def splitNl : List Char → List (List Char)
  | [] => [[]]
  | c :: cs =>
    if c = '\n' then [] :: splitNl cs
    else
      match splitNl cs with
      | l :: ls => (c :: l) :: ls
      | [] => [[c]]

/-- The lines of a string, as strings. -/
def strLines (s : String) : List String :=
  (splitNl s.data).map String.mk

/-- Decimal digits of `n`, most significant first; reference rendering used
to reason about `Nat.repr` (and hence about `{page_num}` in the banner). -/
def digitsOf (n : Nat) : List Char :=
  if h : n < 10 then [Nat.digitChar n]
  else digitsOf (n / 10) ++ [Nat.digitChar (n % 10)]
termination_by n
decreasing_by omega

/-- Read a character list as a decimal numeral (`'0'` has code 48). -/
def parseNatChars (cs : List Char) : Nat :=
  cs.foldl (fun a c => a * 10 + (c.toNat - 48)) 0

/-- Decide whether a line is exactly a banner line `--- Page k ---` and
return `k` when it is: a candidate `k` is read from the characters between
the 9-character frame `--- Page ` and the 4-character frame ` ---`, and is
accepted only if rebuilding the banner from it reproduces the line. -/
def bannerNum (l : String) : Option Nat :=
  let cs := l.data.drop 9
  let k := parseNatChars (cs.take (cs.length - 4))
  if l = bannerString k then some k else none

/-- The part of a character list after its last `'/'` (the whole list when
it has none). -/
def afterLastSlash : List Char → List Char
  | [] => []
  | c :: cs =>
    if '/' ∈ cs then afterLastSlash cs
    else if c = '/' then cs
    else c :: cs

/-- Model of `os.path.basename` (POSIX, line 67): the part of the path after
the last `/`. -/
def basename (p : String) : String :=
  String.mk (afterLastSlash p.data)

/-- The part of a character list before its last `'.'` (meaningful when a
`'.'` is present). -/
def beforeLastDot : List Char → List Char
  | [] => []
  | c :: cs => if '.' ∈ cs then c :: beforeLastDot cs else []

/-- Model of `os.path.splitext(name)[0]` (CPython `posixpath.splitext`,
line 68) for a name without `/`: the split happens at the last dot, but only
when some character before that dot is not itself a dot — a name consisting
of leading dots plus no further dot (such as `.pdf` or `..pdf`) has no
extension and is returned whole. -/
def splitextRoot (name : String) : String :=
  if '.' ∈ name.data then
    let pre := beforeLastDot name.data
    if pre.any (fun c => c != '.') then String.mk pre else name
  else name

/-- Model of `os.path.join(a, b)` (POSIX, two arguments, line 69): an
absolute `b` wins; otherwise a separator is inserted unless `a` is empty or
already ends in `/`. -/
def joinPath (a b : String) : String :=
  if b.data.take 1 = ['/'] then b
  else if a.data = [] ∨ a.data.getLast? = some '/' then a ++ b
  else a ++ "/" ++ b

/-- Hardcoded base directory (line 45). -/
def base_dir : String := "/teamspace/studios/this_studio/MTBT_Go"

/-- First hardcoded input path (line 47). -/
def pdf1 : String := base_dir ++ "/NSE docs/MSD67677.pdf"

/-- Second hardcoded input path (line 48). -/
def pdf2 : String := base_dir ++ "/NSE docs/MTBT_FO_NNF_PROTOCL_6.7_0 (1).pdf"

/-- Hardcoded input list `pdf_files` (lines 46-49). -/
def pdf_files : List String := [pdf1, pdf2]

/-- Hardcoded output directory (line 52). -/
def output_dir : String := base_dir ++ "/text_convert/output"

/-- Output path derivation (lines 66-69): take the input's basename, replace
its extension by `.txt`, and join with the output directory. -/
def derivedOutputPath (dir pdf_path : String) : String :=
  joinPath dir (splitextRoot (basename pdf_path) ++ ".txt")

/-- Behaviour of the environment during one `main()` run: whether
`os.makedirs(output_dir, exist_ok=True)` (line 53) succeeds, which paths
`os.path.exists` reports as present (line 62), and how the external calls
behave when converting each path. -/
structure RunEnv where
  makedirsOk : Bool
  pathExists : String → Bool
  convEnv : String → FileEnv

/-- One iteration of the `for pdf_path in pdf_files` loop (lines 61-73),
returning the successes gained (0 or 1), the output-file events
`(derived output path, resulting file state)` and the warnings printed.  A
missing path is skipped with a warning before any output path is derived. -/
def processOne (env : RunEnv) (pdf_path : String) :
    Nat × List (String × FileState) × List String :=
  if env.pathExists pdf_path = false then
    (0, [], ["✗ File not found: " ++ pdf_path])
  else
    let r := pdf_to_text (env.convEnv pdf_path)
    ((if r.success then 1 else 0),
     [(derivedOutputPath output_dir pdf_path, r.outFile)], [])

/-- The whole conversion loop over a file list, accumulating the success
count, the output-file events and the warnings in list order. -/
def convertLoop (env : RunEnv) :
    List String → Nat × List (String × FileState) × List String
  | [] => (0, [], [])
  | p :: ps =>
    let r := processOne env p
    let rest := convertLoop env ps
    (r.1 + rest.1, r.2.1 ++ rest.2.1, r.2.2 ++ rest.2.2)

/-- Observable outcome of a completed `main()` run. -/
structure RunResult where
  success_count : Nat
  total : Nat
  events : List (String × FileState)
  warnings : List String
  summary : String
deriving DecidableEq

/-- Model of `main()` (lines 43-81) run over the file list `files`.  The
`os.makedirs` call (line 53) is outside any `try`, so its failure raises out
of `main` (modelled as `.error`); otherwise the loop runs to completion and
the summary line (line 77,
`f"Conversion complete: {success_count}/{len(pdf_files)} files converted"`)
is produced with the full length of the original list as denominator. -/
def mainRunWith (files : List String) (env : RunEnv) : Except String RunResult :=
  if env.makedirsOk = false then .error "makedirs failed"
  else
    let r := convertLoop env files
    .ok ⟨r.1, files.length, r.2.1, r.2.2,
      "Conversion complete: " ++ toString r.1 ++ "/" ++ toString files.length
        ++ " files converted"⟩

/-- `main()` as shipped: run on the hardcoded `pdf_files` list. -/
def mainRun (env : RunEnv) : Except String RunResult :=
  mainRunWith pdf_files env

/-- Process exit code of a run: 0 on normal return; 1 when an uncaught
exception escapes `main` (CPython exits with code 1 on an unhandled
exception). -/
def exitCode (env : RunEnv) : Nat :=
  match mainRun env with
  | .ok _ => 0
  | .error _ => 1

/-- Writing a file with mode `'w'`: create or truncate, then replace the
content; never fails because of an existing file at the path. -/
def writeFileW (fs : String → Option String) (path content : String) :
    String → Option String :=
  fun q => if q = path then some content else fs q

/-- One `pdf_to_text` call acting on a filesystem `fs` (paths to contents);
`junk` stands for the unspecified partial content left behind when the write
raises midway. -/
def runConvertFs (junk : String) (fs : String → Option String) (env : FileEnv)
    (outPath : String) : (String → Option String) × Bool :=
  match pdf_to_text env with
  | ⟨ok, .written c⟩ => (writeFileW fs outPath c, ok)
  | ⟨ok, .interrupted⟩ => (writeFileW fs outPath junk, ok)
  | ⟨ok, .absent⟩ => (fs, ok)

/-- A conversion environment for a 2-page document with texts `Hello` and
`World` whose external calls all succeed. -/
def envHelloWorld : FileEnv := ⟨.ok [.ok "Hello", .ok "World"], true, true⟩

/-- A run environment where every path exists and every document opens with
an exception (parse failure). -/
def envBadOpen : RunEnv :=
  ⟨true, fun _ => true, fun _ => ⟨.error "boom", true, true⟩⟩

/-- A run environment where no configured path exists. -/
def envAllMissing : RunEnv :=
  ⟨true, fun _ => false, fun _ => ⟨.error "", true, true⟩⟩

/-- A run environment where every path exists and every document is a valid
zero-page PDF with all filesystem calls succeeding. -/
def envZeroPages : RunEnv :=
  ⟨true, fun _ => true, fun _ => ⟨.ok [], true, true⟩⟩

/-! Helper lemmas about newline splitting. -/

theorem splitNl_ne_nil : ∀ cs : List Char, splitNl cs ≠ []
  | [] => by simp [splitNl]
  | c :: cs => by
    simp only [splitNl]
    split
    · simp
    · cases h : splitNl cs with
      | nil => exact absurd h (splitNl_ne_nil cs)
      | cons l ls => simp

theorem splitNl_append_nl (xs ys : List Char) :
    splitNl (xs ++ '\n' :: ys) = splitNl xs ++ splitNl ys := by
  induction xs with
  | nil => simp [splitNl]
  | cons c cs ih =>
    by_cases hc : c = '\n'
    · subst hc
      simp [splitNl, ih]
    · cases h : splitNl cs with
      | nil => exact absurd h (splitNl_ne_nil cs)
      | cons l ls =>
        simp only [List.cons_append, splitNl, if_neg hc, List.append_eq]
        rw [ih, h]
        simp

theorem splitNl_single (xs : List Char) (h : ∀ c ∈ xs, c ≠ '\n') :
    splitNl xs = [xs] := by
  induction xs with
  | nil => rfl
  | cons c cs ih =>
    have hc : c ≠ '\n' := h c (List.mem_cons_self c cs)
    have hcs := ih (fun d hd => h d (List.mem_cons_of_mem c hd))
    simp [splitNl, hc, hcs]

/-! Helper lemmas about decimal rendering of page numbers. -/

theorem digitChar_ne_nl (k : Nat) : Nat.digitChar k ≠ '\n' := by
  rcases Nat.lt_or_ge k 16 with h | h
  · interval_cases k <;> decide
  · unfold Nat.digitChar
    rw [if_neg (show ¬(k = 0) by omega), if_neg (show ¬(k = 1) by omega),
      if_neg (show ¬(k = 2) by omega), if_neg (show ¬(k = 3) by omega),
      if_neg (show ¬(k = 4) by omega), if_neg (show ¬(k = 5) by omega),
      if_neg (show ¬(k = 6) by omega), if_neg (show ¬(k = 7) by omega),
      if_neg (show ¬(k = 8) by omega), if_neg (show ¬(k = 9) by omega),
      if_neg (show ¬(k = 10) by omega), if_neg (show ¬(k = 11) by omega),
      if_neg (show ¬(k = 12) by omega), if_neg (show ¬(k = 13) by omega),
      if_neg (show ¬(k = 14) by omega), if_neg (show ¬(k = 15) by omega)]
    decide

theorem digitChar_toNat (k : Nat) (h : k < 10) :
    (Nat.digitChar k).toNat - 48 = k := by
  interval_cases k <;> decide

theorem toDigitsCore_eq (fuel n : Nat) (ds : List Char) (h : n < fuel) :
    Nat.toDigitsCore 10 fuel n ds = digitsOf n ++ ds := by
  induction fuel generalizing n ds with
  | zero => omega
  | succ f ih =>
    by_cases h10 : n / 10 = 0
    · have hn : n < 10 := by omega
      simp [Nat.toDigitsCore, h10, digitsOf, hn, Nat.mod_eq_of_lt hn]
    · have hn : ¬ n < 10 := by omega
      have hlt : n / 10 < f := by omega
      have hdn : digitsOf n = digitsOf (n / 10) ++ [Nat.digitChar (n % 10)] := by
        rw [digitsOf]
        simp [hn]
      simp only [Nat.toDigitsCore, h10, if_false]
      rw [ih _ _ hlt, hdn, List.append_assoc]
      simp

theorem repr_data (n : Nat) : (Nat.repr n).data = digitsOf n := by
  unfold Nat.repr Nat.toDigits
  rw [toDigitsCore_eq (n + 1) n [] (by omega)]
  rw [List.append_nil]
  rfl

theorem digitsOf_ne_nl (n : Nat) : ∀ c ∈ digitsOf n, c ≠ '\n' := by
  induction n using Nat.strong_induction_on with
  | _ n ih =>
    rw [digitsOf]
    split
    · intro c hc
      rw [List.mem_singleton] at hc
      subst hc
      exact digitChar_ne_nl n
    · intro c hc
      rcases List.mem_append.mp hc with h1 | h2
      · exact ih (n / 10) (by omega) c h1
      · rw [List.mem_singleton] at h2
        subst h2
        exact digitChar_ne_nl (n % 10)

theorem parse_digitsOf (n : Nat) : parseNatChars (digitsOf n) = n := by
  induction n using Nat.strong_induction_on with
  | _ n ih =>
    rw [digitsOf]
    split
    · simp only [parseNatChars, List.foldl_cons, List.foldl_nil]
      rw [Nat.zero_mul, Nat.zero_add, digitChar_toNat n (by assumption)]
    · have ih' := ih (n / 10) (by omega)
      simp only [parseNatChars, List.foldl_append, List.foldl_cons,
        List.foldl_nil] at ih' ⊢
      rw [ih', digitChar_toNat (n % 10) (by omega)]
      omega

theorem toString_nat_data (n : Nat) : (toString n).data = digitsOf n :=
  repr_data n

/-! Helper lemmas about banner lines. -/

theorem bannerString_data (n : Nat) :
    (bannerString n).data
      = "--- Page ".data ++ (digitsOf n ++ " ---".data) := by
  simp only [bannerString, String.data_append, toString_nat_data,
    List.append_assoc]

theorem bannerString_ne_nl (n : Nat) :
    ∀ c ∈ (bannerString n).data, c ≠ '\n' := by
  rw [bannerString_data]
  intro c hc
  have hpre : ∀ d ∈ ("--- Page ".data : List Char), d ≠ '\n' := by decide
  have hsuf : ∀ d ∈ (" ---".data : List Char), d ≠ '\n' := by decide
  rcases List.mem_append.mp hc with h1 | h2
  · exact hpre c h1
  · rcases List.mem_append.mp h2 with h3 | h4
    · exact digitsOf_ne_nl n c h3
    · exact hsuf c h4

theorem splitNl_banner (n : Nat) :
    splitNl (bannerString n).data = [(bannerString n).data] :=
  splitNl_single _ (bannerString_ne_nl n)

theorem bannerNum_banner (n : Nat) : bannerNum (bannerString n) = some n := by
  have hdrop : (bannerString n).data.drop 9 = digitsOf n ++ " ---".data := by
    rw [bannerString_data,
      show (9 : Nat) = ("--- Page ".data : List Char).length from rfl,
      List.drop_left]
  have htake :
      ((bannerString n).data.drop 9).take
          (((bannerString n).data.drop 9).length - 4) = digitsOf n := by
    rw [hdrop, List.length_append,
      show (" ---".data : List Char).length = 4 from rfl,
      Nat.add_sub_cancel,
      List.take_left]
  unfold bannerNum
  simp only [htake, parse_digitsOf, if_pos rfl]
  simp

theorem bannerNum_sound {l : String} {k : Nat} (h : bannerNum l = some k) :
    l = bannerString k := by
  simp only [bannerNum] at h
  split at h
  · cases h
    assumption
  · cases h

theorem bannerNum_none_of_ne {l : String}
    (h : ∀ k : Nat, l ≠ bannerString k) : bannerNum l = none := by
  cases hb : bannerNum l with
  | none => rfl
  | some k => exact absurd (bannerNum_sound hb) (h k)

/-! Helper lemmas about the line structure of the joined output. -/

theorem data_nl : ("\n" : String).data = ['\n'] := rfl

theorem mk_data (s : String) : String.mk s.data = s := rfl

theorem mk_nil : String.mk [] = "" := rfl

theorem pageBlock_data (n : Nat) (t : String) :
    (pageBlock n t).data
      = (bannerString n).data ++ '\n' :: (t.data ++ ['\n']) := by
  simp [pageBlock, String.data_append, data_nl, List.append_assoc]

theorem splitNl_textContent (n : Nat) (ts : List String) (hne : ts ≠ []) :
    splitNl (joinNl (textContentFrom n ts)).data
      = (ts.enumFrom n).flatMap
          (fun p => (bannerString p.1).data :: (splitNl p.2.data ++ [[]])) := by
  induction ts generalizing n with
  | nil => exact absurd rfl hne
  | cons t ts ih =>
    cases ts with
    | nil =>
      have hj : joinNl (textContentFrom n [t]) = pageBlock n t := rfl
      rw [hj, pageBlock_data, splitNl_append_nl, splitNl_banner,
        show (t.data ++ ['\n']) = t.data ++ '\n' :: [] from rfl,
        splitNl_append_nl]
      simp [splitNl, List.enumFrom]
    | cons t' ts' =>
      have hj : joinNl (textContentFrom n (t :: t' :: ts'))
          = pageBlock n t ++ "\n" ++ joinNl (textContentFrom (n + 1) (t' :: ts')) := rfl
      have hdata :
          (pageBlock n t ++ "\n"
              ++ joinNl (textContentFrom (n + 1) (t' :: ts'))).data
            = (bannerString n).data
                ++ '\n' :: (t.data
                  ++ '\n' :: ('\n'
                    :: (joinNl (textContentFrom (n + 1) (t' :: ts'))).data)) := by
        simp [pageBlock, String.data_append, data_nl, List.append_assoc]
      rw [hj, hdata, splitNl_append_nl, splitNl_banner, splitNl_append_nl]
      have hnl : splitNl ('\n' :: (joinNl (textContentFrom (n + 1) (t' :: ts'))).data)
          = [] :: splitNl (joinNl (textContentFrom (n + 1) (t' :: ts'))).data := by
        simp [splitNl]
      rw [hnl, ih (n + 1) (by simp)]
      simp [List.enumFrom, List.append_assoc]

theorem strLines_textContent (n : Nat) (ts : List String) (hne : ts ≠ []) :
    strLines (joinNl (textContentFrom n ts))
      = (ts.enumFrom n).flatMap
          (fun p => bannerString p.1 :: (strLines p.2 ++ [""])) := by
  unfold strLines
  rw [splitNl_textContent n ts hne, List.map_flatMap]
  simp only [List.map_cons, List.map_append, List.map_nil, mk_data, mk_nil]

theorem filterMap_banner_chunks (n : Nat) (ts : List String)
    (hclean : ∀ t ∈ ts, ∀ l ∈ strLines t, bannerNum l = none) :
    ((ts.enumFrom n).flatMap
        (fun p => bannerString p.1 :: (strLines p.2 ++ [""]))).filterMap bannerNum
      = List.range' n ts.length := by
  induction ts generalizing n with
  | nil => simp
  | cons t ts ih =>
    have ht : ∀ l ∈ strLines t, bannerNum l = none :=
      hclean t (List.mem_cons_self t ts)
    have hts : ∀ u ∈ ts, ∀ l ∈ strLines u, bannerNum l = none :=
      fun u hu => hclean u (List.mem_cons_of_mem t hu)
    have h1 : List.filterMap bannerNum (strLines t) = [] :=
      List.filterMap_eq_nil_iff.mpr ht
    have h2 : List.filterMap bannerNum [""] = [] := by decide
    have hchunk :
        List.filterMap bannerNum (bannerString n :: (strLines t ++ [""]))
          = [n] := by
      simp [List.filterMap_cons, List.filterMap_append, bannerNum_banner, h1, h2]
    simp only [List.enumFrom, List.flatMap_cons, List.filterMap_append, hchunk,
      ih (n + 1) hts, List.length_cons]
    rfl

/-! Helper lemmas about the extraction loop. -/

theorem textContentLoop_map_ok (n : Nat) (ts : List String) :
    textContentLoop n (ts.map Except.ok) = .ok (textContentFrom n ts) := by
  induction ts generalizing n with
  | nil => rfl
  | cons t ts ih => simp [textContentLoop, textContentFrom, ih]

theorem textContentLoop_ok_shape (n : Nat) (ps : List PageExtract)
    (bs : List String) (h : textContentLoop n ps = .ok bs) :
    ∃ ts, ps = List.map Except.ok ts := by
  induction ps generalizing n bs with
  | nil => exact ⟨[], rfl⟩
  | cons pe ps ih =>
    cases pe with
    | error e => simp [textContentLoop] at h
    | ok t =>
      cases hrec : textContentLoop (n + 1) ps with
      | error e => simp [textContentLoop, hrec] at h
      | ok rest =>
        obtain ⟨ts, hts⟩ := ih (n + 1) rest hrec
        exact ⟨t :: ts, by rw [hts]; rfl⟩

/-! Helper lemmas about `pdf_to_text` and the driver loop. -/

theorem pdf_to_text_success_iff (env : FileEnv) :
    (pdf_to_text env).success = true
      ↔ (∃ texts, env.openResult = .ok (List.map Except.ok texts))
          ∧ env.openOutOk = true ∧ env.writeOk = true := by
  constructor
  · intro h
    cases hop : env.openResult with
    | error e => simp [pdf_to_text, hop] at h
    | ok pages =>
      cases hloop : textContentLoop 1 pages with
      | error e => simp [pdf_to_text, hop, hloop] at h
      | ok bs =>
        obtain ⟨ts, hts⟩ := textContentLoop_ok_shape 1 pages bs hloop
        by_cases ho : env.openOutOk = true
        · by_cases hw : env.writeOk = true
          · exact ⟨⟨ts, by rw [hts]⟩, ho, hw⟩
          · simp [pdf_to_text, hop, hloop, ho, hw] at h
        · simp [pdf_to_text, hop, hloop, ho] at h
  · rintro ⟨⟨ts, hop⟩, ho, hw⟩
    simp [pdf_to_text, hop, textContentLoop_map_ok, ho, hw]

theorem pdf_to_text_success_written (env : FileEnv)
    (h : (pdf_to_text env).success = true) :
    ∃ c, pdf_to_text env = ⟨true, .written c⟩ := by
  obtain ⟨⟨ts, hop⟩, ho, hw⟩ := (pdf_to_text_success_iff env).mp h
  exact ⟨joinNl (textContentFrom 1 ts),
    by simp [pdf_to_text, hop, textContentLoop_map_ok, ho, hw]⟩

theorem convertLoop_count (env : RunEnv) (files : List String) :
    (convertLoop env files).1
      = (files.map (fun q => (processOne env q).1)).sum := by
  induction files with
  | nil => rfl
  | cons p ps ih => simp [convertLoop, ih]

theorem processOne_events (env : RunEnv) (p : String) :
    (processOne env p).2.1 = []
      ∨ (processOne env p).2.1
          = [(derivedOutputPath output_dir p,
              (pdf_to_text (env.convEnv p)).outFile)] := by
  by_cases h : env.pathExists p = false
  · left
    simp [processOne, h]
  · right
    simp [processOne, h]

/-! Helper lemmas about the path derivation. -/

theorem beforeLastDot_append (ys xs : List Char) (h : '.' ∉ xs) :
    beforeLastDot (ys ++ '.' :: xs) = ys := by
  induction ys with
  | nil => simp [beforeLastDot, h]
  | cons c cs ih =>
    have hmem : '.' ∈ cs ++ '.' :: xs :=
      List.mem_append.mpr (Or.inr (List.mem_cons_self _ _))
    simp [beforeLastDot, hmem, ih]

theorem splitextRoot_pdf (X : String) (hx : ∃ c ∈ X.data, c ≠ '.') :
    splitextRoot (X ++ ".pdf") = X := by
  have hdata : (X ++ ".pdf").data = X.data ++ '.' :: "pdf".data := by
    rw [String.data_append]
  have hmem : '.' ∈ (X ++ ".pdf").data := by
    rw [hdata]
    exact List.mem_append.mpr (Or.inr (List.mem_cons_self _ _))
  have hpre : beforeLastDot (X ++ ".pdf").data = X.data := by
    rw [hdata]
    exact beforeLastDot_append X.data _ (by decide)
  have hanyX : (X.data.any fun c => c != '.') = true := by
    obtain ⟨c, hc, hcne⟩ := hx
    exact List.any_eq_true.mpr ⟨c, hc, by simp [hcne]⟩
  unfold splitextRoot
  rw [if_pos hmem]
  show (if ((beforeLastDot (X ++ ".pdf").data).any fun c => c != '.') = true
      then String.mk (beforeLastDot (X ++ ".pdf").data) else X ++ ".pdf") = X
  rw [hpre, if_pos hanyX]

/-! Claim C1. -/

/-- C1 (counterexample): the claim "the written output file contains exactly
N banner lines of the form `--- Page k ---`, one for each k = 1..N" is false
as stated: when a page's extracted text is itself a banner-shaped line, the
output of a successfully processed 1-page document contains two banner
lines, not one. -/
theorem c1_counterexample :
    (pdf_to_text ⟨.ok [.ok "--- Page 1 ---"], true, true⟩).outFile
        = .written "--- Page 1 ---\n--- Page 1 ---\n"
      ∧ (strLines "--- Page 1 ---\n--- Page 1 ---\n").filterMap bannerNum
          = [1, 1]
      ∧ [1, 1] ≠ List.range' 1 1 := by
  refine ⟨by decide, by decide, by decide⟩

/-- C1 (amended): for every valid PDF input with N ≥ 1 pages that the
extraction routine processes successfully, provided no page's extracted text
itself contains a banner-shaped line, the written output consists, page by
page in order, of the banner line `--- Page k ---` immediately followed by
the lines of page k's extracted text (then a blank separator line), and the
banner lines occurring in the output are exactly `--- Page k ---` for
k = 1..N in ascending order (`List.range' 1 N`). -/
theorem c1_banner_blocks (env : FileEnv) (pages : List String)
    (hopen : env.openResult = .ok (pages.map Except.ok))
    (hout : env.openOutOk = true) (hw : env.writeOk = true)
    (hne : pages ≠ [])
    (hclean : ∀ t ∈ pages, ∀ l ∈ strLines t, bannerNum l = none) :
    ∃ out, (pdf_to_text env).outFile = .written out
      ∧ strLines out
          = (pages.enumFrom 1).flatMap
              (fun p => bannerString p.1 :: (strLines p.2 ++ [""]))
      ∧ (strLines out).filterMap bannerNum = List.range' 1 pages.length := by
  have hpt : pdf_to_text env
      = ⟨true, .written (joinNl (textContentFrom 1 pages))⟩ := by
    simp [pdf_to_text, hopen, textContentLoop_map_ok, hout, hw]
  refine ⟨joinNl (textContentFrom 1 pages), by rw [hpt], ?_, ?_⟩
  · exact strLines_textContent 1 pages hne
  · rw [strLines_textContent 1 pages hne]
    exact filterMap_banner_chunks 1 pages hclean

/-- C1 witness: the amended theorem applied to the concrete 2-page document
with page texts `Hello` and `World`. -/
theorem c1_banner_blocks_witness :
    ∃ out, (pdf_to_text envHelloWorld).outFile = .written out
      ∧ strLines out
          = ((["Hello", "World"] : List String).enumFrom 1).flatMap
              (fun p => bannerString p.1 :: (strLines p.2 ++ [""]))
      ∧ (strLines out).filterMap bannerNum
          = List.range' 1 (["Hello", "World"] : List String).length :=
  c1_banner_blocks envHelloWorld ["Hello", "World"] rfl rfl rfl (by decide)
    (by decide)

/-! Claim C2. -/

/-- C2 (confirmed): each page is formatted as the block
`--- Page <N> ---\n<text>\n` and the blocks are joined with `'\n'`; for the
2-page document with texts `Hello` and `World` and all external calls
succeeding, the routine returns success and the output file's exact content
is `--- Page 1 ---\nHello\n\n--- Page 2 ---\nWorld\n`. -/
theorem c2_exact_content :
    pdf_to_text ⟨.ok [.ok "Hello", .ok "World"], true, true⟩
      = ⟨true, .written "--- Page 1 ---\nHello\n\n--- Page 2 ---\nWorld\n"⟩ := by
  decide

/-! Claim C6. -/

/-- C6 (confirmed): `pdf_to_text` always returns a boolean success value
(the model is a total function into `ConvResult`, reflecting the blanket
`except Exception` on lines 39-41): the return value is `True` exactly when
the open succeeded, every page extraction succeeded, and the output open and
write succeeded; any raised exception at any of these points yields the
`False` return instead of propagating. -/
theorem c6_no_exception_escapes (env : FileEnv) :
    (pdf_to_text env).success = true
      ↔ (∃ texts, env.openResult = .ok (List.map Except.ok texts))
          ∧ env.openOutOk = true ∧ env.writeOk = true :=
  pdf_to_text_success_iff env

/-! Claim C10. -/

/-- C10 (confirmed): for a valid zero-page PDF, the extraction routine still
creates the output file, writes the empty string (the join of an empty block
list), returns success, and the driver counts the input as a success. -/
theorem c10_zero_pages (env : RunEnv) (p : String)
    (hex : env.pathExists p = true)
    (hconv : env.convEnv p = ⟨.ok [], true, true⟩) :
    pdf_to_text (env.convEnv p) = ⟨true, .written ""⟩
      ∧ processOne env p
          = (1, [(derivedOutputPath output_dir p, FileState.written "")], []) := by
  have h1 : pdf_to_text (env.convEnv p) = ⟨true, .written ""⟩ := by
    rw [hconv]
    decide
  refine ⟨h1, ?_⟩
  simp [processOne, hex, h1]

/-- C10 witness: the theorem applied to a run environment in which every
document is a valid zero-page PDF. -/
theorem c10_zero_pages_witness :
    pdf_to_text (envZeroPages.convEnv "a.pdf") = ⟨true, .written ""⟩
      ∧ processOne envZeroPages "a.pdf"
          = (1, [(derivedOutputPath output_dir "a.pdf", FileState.written "")],
             []) :=
  c10_zero_pages envZeroPages "a.pdf" rfl rfl

/-! Claim C3. -/

/-- C3 (confirmed): when `PdfReader` raises on an input that exists, the
extraction routine returns failure without propagating, no output file is
created at the derived output path (state `absent`), and the driver loop
continues processing the remaining inputs in list order, their results
unchanged. -/
theorem c3_open_failure (env : RunEnv) (p e : String) (rest : List String)
    (hex : env.pathExists p = true)
    (hopen : (env.convEnv p).openResult = .error e) :
    pdf_to_text (env.convEnv p) = ⟨false, .absent⟩
      ∧ processOne env p
          = (0, [(derivedOutputPath output_dir p, FileState.absent)], [])
      ∧ convertLoop env (p :: rest)
          = ((convertLoop env rest).1,
             (derivedOutputPath output_dir p, FileState.absent)
               :: (convertLoop env rest).2.1,
             (convertLoop env rest).2.2) := by
  have h1 : pdf_to_text (env.convEnv p) = ⟨false, .absent⟩ := by
    simp [pdf_to_text, hopen]
  have h2 : processOne env p
      = (0, [(derivedOutputPath output_dir p, FileState.absent)], []) := by
    simp [processOne, hex, h1]
  refine ⟨h1, h2, ?_⟩
  simp [convertLoop, h2]

/-- C3 witness: the theorem applied to a run environment in which every
document open raises. -/
theorem c3_open_failure_witness :
    pdf_to_text (envBadOpen.convEnv "a.pdf") = ⟨false, .absent⟩
      ∧ processOne envBadOpen "a.pdf"
          = (0, [(derivedOutputPath output_dir "a.pdf", FileState.absent)], [])
      ∧ convertLoop envBadOpen ["a.pdf"]
          = ((convertLoop envBadOpen []).1,
             (derivedOutputPath output_dir "a.pdf", FileState.absent)
               :: (convertLoop envBadOpen []).2.1,
             (convertLoop envBadOpen []).2.2) :=
  c3_open_failure envBadOpen "a.pdf" "boom" [] rfl rfl

/-! Claim C4. -/

/-- C4 (confirmed): a missing input path is skipped with a warning, creates
no output event and contributes 0 to the success count, yet the final
summary's denominator is the full length of the original input list: the run
returns a result whose `total` is `files.length` and whose summary line
reads `Conversion complete: <successes>/<files.length> files converted`. -/
theorem c4_missing_input (env : RunEnv) (files : List String) (p : String)
    (hmem : p ∈ files) (hmiss : env.pathExists p = false)
    (hmk : env.makedirsOk = true) :
    processOne env p = (0, [], ["✗ File not found: " ++ p])
      ∧ ∃ r, mainRunWith files env = .ok r
          ∧ r.total = files.length
          ∧ r.success_count
              = (files.map (fun q => (processOne env q).1)).sum
          ∧ r.summary
              = "Conversion complete: " ++ toString r.success_count ++ "/"
                  ++ toString files.length ++ " files converted" := by
  have hmain : mainRunWith files env
      = .ok ⟨(convertLoop env files).1, files.length,
          (convertLoop env files).2.1, (convertLoop env files).2.2,
          "Conversion complete: " ++ toString (convertLoop env files).1 ++ "/"
            ++ toString files.length ++ " files converted"⟩ := by
    simp [mainRunWith, hmk]
  exact ⟨by simp [processOne, hmiss],
    ⟨_, hmain, rfl, convertLoop_count env files, rfl⟩⟩

/-- C4 witness: the theorem applied to the hardcoded file list in a run
environment where no path exists. -/
theorem c4_missing_input_witness :
    processOne envAllMissing pdf1 = (0, [], ["✗ File not found: " ++ pdf1])
      ∧ ∃ r, mainRunWith pdf_files envAllMissing = .ok r
          ∧ r.total = pdf_files.length
          ∧ r.success_count
              = (pdf_files.map (fun q => (processOne envAllMissing q).1)).sum
          ∧ r.summary
              = "Conversion complete: " ++ toString r.success_count ++ "/"
                  ++ toString pdf_files.length ++ " files converted" :=
  c4_missing_input envAllMissing pdf_files pdf1 (by simp [pdf_files]) rfl rfl

/-! Claim C5. -/

/-- C5 (counterexample): the claim "no failure of any step of the run ever
produces a non-zero exit status" is false as stated: `os.makedirs` (line 53)
is outside any `try`, so when it raises, the exception escapes `main` and
the process exits with a non-zero code. -/
theorem c5_counterexample :
    exitCode ⟨false, fun _ => false, fun _ => ⟨.error "", false, false⟩⟩ ≠ 0 := by
  decide

/-- C5 (amended): whenever the initial `os.makedirs` call succeeds, the
process always exits normally with code 0, regardless of how many
individual files are missing or fail to convert. -/
theorem c5_exit_zero (env : RunEnv) (hmk : env.makedirsOk = true) :
    exitCode env = 0 := by
  simp [exitCode, mainRun, mainRunWith, hmk]

/-- C5 witness: the amended theorem applied to a run in which every
configured file is missing. -/
theorem c5_exit_zero_witness : exitCode envAllMissing = 0 :=
  c5_exit_zero envAllMissing rfl

/-! Claim C7. -/

/-- C7 (counterexample): the claim fails for a base filename whose stem
consists only of dots: for the input `/x/..pdf` the base filename is
`X.pdf` with `X = "."`, yet CPython's `splitext` treats the leading-dot run
as extension-less, so the derived output name is `..pdf.txt`, not
`X ++ ".txt" = "..txt"`. -/
theorem c7_counterexample :
    basename "/x/..pdf" = "." ++ ".pdf"
      ∧ derivedOutputPath output_dir "/x/..pdf"
          ≠ joinPath output_dir ("." ++ ".txt") := by
  refine ⟨by decide, by decide⟩

/-- C7 (amended): output filename derivation is a deterministic function of
the input path: for every input whose base filename is `X.pdf` with `X`
containing at least one character other than `.`, the derived output file is
named `X.txt`, joined onto the configured output directory. -/
theorem c7_output_filename (p X : String)
    (hb : basename p = X ++ ".pdf")
    (hx : ∃ c ∈ X.data, c ≠ '.') :
    derivedOutputPath output_dir p = joinPath output_dir (X ++ ".txt") := by
  unfold derivedOutputPath
  rw [hb, splitextRoot_pdf X hx]

/-- C7 witness: the amended theorem applied to the input `/base/a.pdf`. -/
theorem c7_output_filename_witness :
    derivedOutputPath output_dir "/base/a.pdf"
      = joinPath output_dir ("a" ++ ".txt") :=
  c7_output_filename "/base/a.pdf" "a" (by decide) ⟨'a', by decide, by decide⟩

/-! Claim C8. -/

/-- C8 (confirmed): running the conversion twice on the same valid input
with the same output path writes byte-identical content: both runs succeed
(mode `'w'` overwrites the existing file without error), the second run
leaves the filesystem exactly as the first run did, and the output path
holds the same content after each run. -/
theorem c8_idempotent_overwrite (env : FileEnv) (fs : String → Option String)
    (junk outPath : String) (h : (pdf_to_text env).success = true) :
    ∃ c,
      (runConvertFs junk fs env outPath).2 = true
      ∧ (runConvertFs junk (runConvertFs junk fs env outPath).1 env outPath).2
          = true
      ∧ (runConvertFs junk (runConvertFs junk fs env outPath).1 env outPath).1
          = (runConvertFs junk fs env outPath).1
      ∧ (runConvertFs junk fs env outPath).1 outPath = some c
      ∧ (runConvertFs junk (runConvertFs junk fs env outPath).1 env outPath).1
          outPath = some c := by
  obtain ⟨c, hc⟩ := pdf_to_text_success_written env h
  have hr : ∀ g : String → Option String,
      runConvertFs junk g env outPath = (writeFileW g outPath c, true) := by
    intro g
    simp [runConvertFs, hc]
  have hww : writeFileW (writeFileW fs outPath c) outPath c
      = writeFileW fs outPath c := by
    funext q
    by_cases hq : q = outPath <;> simp [writeFileW, hq]
  refine ⟨c, ?_, ?_, ?_, ?_, ?_⟩
  · rw [hr]
  · rw [hr, hr]
  · rw [hr, hr]
    exact hww
  · rw [hr]
    simp [writeFileW]
  · rw [hr, hr]
    simp [writeFileW]

/-- C8 witness: the theorem applied to the concrete 2-page document on an
empty filesystem. -/
theorem c8_idempotent_overwrite_witness :
    ∃ c,
      (runConvertFs "" (fun _ => none) envHelloWorld "out.txt").2 = true
      ∧ (runConvertFs ""
            (runConvertFs "" (fun _ => none) envHelloWorld "out.txt").1
            envHelloWorld "out.txt").2 = true
      ∧ (runConvertFs ""
            (runConvertFs "" (fun _ => none) envHelloWorld "out.txt").1
            envHelloWorld "out.txt").1
          = (runConvertFs "" (fun _ => none) envHelloWorld "out.txt").1
      ∧ (runConvertFs "" (fun _ => none) envHelloWorld "out.txt").1 "out.txt"
          = some c
      ∧ (runConvertFs ""
            (runConvertFs "" (fun _ => none) envHelloWorld "out.txt").1
            envHelloWorld "out.txt").1 "out.txt" = some c :=
  c8_idempotent_overwrite envHelloWorld (fun _ => none) "" "out.txt" (by decide)

/-! Claim C9. -/

/-- C9 (confirmed): in every completed run on the hardcoded file list, every
output event is at the derived path of one of the two configured inputs, the
event paths are pairwise distinct (no two inputs merge into one output), no
input produces more than one output event (no splitting), and there are at
most as many output events as inputs. -/
theorem c9_one_output_per_input (env : RunEnv) (r : RunResult)
    (h : mainRunWith pdf_files env = .ok r) :
    (∀ ev ∈ r.events, ev.1 = derivedOutputPath output_dir pdf1
        ∨ ev.1 = derivedOutputPath output_dir pdf2)
      ∧ (r.events.map Prod.fst).Nodup
      ∧ (∀ q : String, (processOne env q).2.1.length ≤ 1)
      ∧ r.events.length ≤ pdf_files.length := by
  have hne : derivedOutputPath output_dir pdf1
      ≠ derivedOutputPath output_dir pdf2 := by decide
  cases hmk : env.makedirsOk with
  | false => simp [mainRunWith, hmk] at h
  | true =>
    have hr : r.events = (convertLoop env pdf_files).2.1 := by
      simp [mainRunWith, hmk] at h
      rw [← h]
    have hloop : (convertLoop env pdf_files).2.1
        = (processOne env pdf1).2.1 ++ (processOne env pdf2).2.1 := by
      simp [pdf_files, convertLoop]
    have hone : ∀ q : String, (processOne env q).2.1.length ≤ 1 := by
      intro q
      rcases processOne_events env q with hq | hq <;> simp [hq]
    rw [hr, hloop]
    rcases processOne_events env pdf1 with h1 | h1 <;>
      rcases processOne_events env pdf2 with h2 | h2 <;>
      rw [h1, h2] <;>
      refine ⟨?_, ?_, hone, ?_⟩ <;>
      simp [pdf_files, hne]

/-- C9 witness: the theorem applied to a run in which both configured files
exist as valid zero-page PDFs, producing two distinct output files. -/
theorem c9_one_output_per_input_witness :
    (∀ ev ∈ (RunResult.mk 2 2
        [(derivedOutputPath output_dir pdf1, FileState.written ""),
         (derivedOutputPath output_dir pdf2, FileState.written "")] []
        "Conversion complete: 2/2 files converted").events,
      ev.1 = derivedOutputPath output_dir pdf1
        ∨ ev.1 = derivedOutputPath output_dir pdf2)
      ∧ (((RunResult.mk 2 2
          [(derivedOutputPath output_dir pdf1, FileState.written ""),
           (derivedOutputPath output_dir pdf2, FileState.written "")] []
          "Conversion complete: 2/2 files converted").events.map Prod.fst).Nodup)
      ∧ (∀ q : String, (processOne envZeroPages q).2.1.length ≤ 1)
      ∧ (RunResult.mk 2 2
          [(derivedOutputPath output_dir pdf1, FileState.written ""),
           (derivedOutputPath output_dir pdf2, FileState.written "")] []
          "Conversion complete: 2/2 files converted").events.length
          ≤ pdf_files.length :=
  c9_one_output_per_input envZeroPages
    (RunResult.mk 2 2
      [(derivedOutputPath output_dir pdf1, FileState.written ""),
       (derivedOutputPath output_dir pdf2, FileState.written "")] []
      "Conversion complete: 2/2 files converted") rfl

end PdfToText
